import Mathlib

/-!
Verification of `src/frontend/app.js` (positions grid, selection store,
hedge-application protocol, polling loop).

The JavaScript source is shallowly embedded as pure Lean functions:

* DOM state of the page (the positions grid container and the selection
  panel) is an explicit `PageState`.
* `loadPositions` becomes a pure state transformer taking the outcome of
  the `fetch` of `/api/positions/{product}` as an argument.
* `applyHedgeFromSelection` becomes a pure function of a `HedgeEnv`
  (the backend's responses and the operator's prompt answers for the one
  run) that returns the final page state together with the trace of
  observable events (HTTP requests issued, `alert`s and `console.log`s).
* the `setInterval` poll loop with its `_isLoading` single-flight flag
  becomes a small labelled transition system `pollStep`.

JS numbers are modelled by `Rat` (claims here never depend on floating
point rounding), `parseInt(s, 10)` and `Number(s)` by explicit parsers
over the characters of the string.
-/

namespace App

/-- JS whitespace test for `trim` (ASCII/Unicode whitespace). -/
def isWS (c : Char) : Bool := c.isWhitespace

/-- `String.prototype.trim`, modelled on the character list. -/
def trimChars (cs : List Char) : List Char :=
  ((cs.dropWhile isWS).reverse.dropWhile isWS).reverse

/-- Numeric value of a list of decimal digits. -/
def digitsVal (cs : List Char) : Nat :=
  cs.foldl (fun a c => a * 10 + (c.toNat - 48)) 0

/-- Split an optional leading sign off a character list, returning the
sign (`1` or `-1`) and the remainder. -/
def splitSign : List Char → Int × List Char
  | '-' :: r => (-1, r)
  | '+' :: r => (1, r)
  | r => (1, r)

/--
`parseInt(s, 10)`: skip leading whitespace, read an optional sign and
then the maximal prefix of decimal digits, ignoring any trailing
characters; `none` models the `NaN` result when no digit is found.
-/
def jsParseInt10 (s : String) : Option Int :=
  let cs := s.data.dropWhile isWS
  let (sign, rest) := splitSign cs
  let ds := rest.takeWhile Char.isDigit
  if ds = [] then none else some (sign * (digitsVal ds : Int))

/--
`Number(s)` on the decimal-literal fragment: after trimming, the empty
string is `0`; an optional sign followed by digits with an optional
fractional part (at least one digit overall) is its value; anything else
is `NaN`, modelled as `none`.  (Hex, exponent and `Infinity` forms never
arise in the inputs considered here.)
-/
def jsNumber (s : String) : Option Rat :=
  let t := trimChars s.data
  if t = [] then some 0
  else
    let (sign, r1) := splitSign t
    let ip := r1.takeWhile Char.isDigit
    let r2 := r1.drop ip.length
    match r2 with
    | '.' :: r3 =>
        let fp := r3.takeWhile Char.isDigit
        let r4 := r3.drop fp.length
        if r4 ≠ [] then none
        else if ip = [] ∧ fp = [] then none
        else some ((sign : Rat) * ((digitsVal ip : Rat) + (digitsVal fp : Rat) / ((10 : Rat) ^ fp.length)))
    | [] => if ip = [] then none else some ((sign : Rat) * (digitsVal ip : Rat))
    | _ => none

/-- `Number(s) || 0`: the `NaN` case collapses to `0` (`0` itself is
also `0`, so `getD` is exact). -/
def jsNumberD (s : String) : Rat := (jsNumber s).getD 0

/-- `String(q)` for a JS number: exact for integral values; for
non-integral values JS's decimal rendering is approximated by `Rat`'s
(no theorem below depends on the non-integral case). -/
def jsNumToString (q : Rat) : String :=
  if q.den = 1 then toString q.num else toString q

/-- A row of the positions snapshot: `{name, lots}` (§ data model). -/
structure Row where
  name : String
  lots : List Rat
deriving DecidableEq, Repr

/-- The JSON body of `GET /api/positions/{product}`:
`{contracts, rows}` after the `|| []` defaulting. -/
structure Snapshot where
  contracts : List String
  rows : List Row
deriving DecidableEq, Repr

/--
`JSON.stringify({ contracts, rows })` is injective on this data shape
(strings are quoted and escaped, numbers render canonically), so equality
of the cached fingerprint strings coincides with structural equality of
snapshots; the fingerprint is therefore modelled by the snapshot value
itself.
-/
def dataJSON (s : Snapshot) : Snapshot := s

/-- A rendered lot cell of the grid (`div.cell.total-cell` with its
`dataset.structure`, `dataset.contract`, the inner span's text and class,
the `selected` class, and the `total-row-disabled` class). -/
structure Cell where
  structureName : String
  contract : String
  text : String
  cls : String
  selected : Bool
  disabled : Bool
deriving DecidableEq, Repr

/-- Contents of the `positions-grid` container: empty (initial), a
`div.loading` placeholder message, or a built grid (header contracts,
lot cells in document order, horizontal scroll offset of the wrap). -/
inductive GridContent where
  | empty
  | placeholder (msg : String)
  | grid (contracts : List String) (cells : List Cell) (scrollLeft : Int)
deriving DecidableEq, Repr

/-- An entry of `window._selectedCells`.  The `element` reference is
modelled by the `(structureName, contract)` pair, which identifies the
cell exactly whenever the grid has no duplicate pairs. -/
structure SelectedCell where
  key : String
  structureName : String
  contract : String
  value : String
deriving DecidableEq, Repr

/-- The page's mutable state: selected product, the cached fingerprint
`window._prevDataJSON` (`none` = initial / cleared), the grid container,
`window._selectedCells`, and the rendered selection panel items. -/
structure PageState where
  product : String
  prevDataJSON : Option Snapshot
  dom : GridContent
  selectedCells : List SelectedCell
  panel : List SelectedCell
deriving DecidableEq, Repr

/-- Page state at load: product selector on its initial value, no cached
fingerprint, empty grid container and no selection. -/
def pageInit : PageState :=
  { product := "CL", prevDataJSON := none, dom := GridContent.empty,
    selectedCells := [], panel := [] }

/-- The key `` `${structure}||${contract}` `` used in `_selectedCells`. -/
def cellKey (structureName contract : String) : String :=
  structureName ++ "||" ++ contract

/-- The lot cells of the current grid (none for placeholders). -/
def gridCells : GridContent → List Cell
  | GridContent.grid _ cs _ => cs
  | _ => []

/-- `gridWrap.scrollLeft` of the current grid, `0` otherwise
(`oldGridWrap ? oldGridWrap.scrollLeft : 0`). -/
def scrollLeftOf : GridContent → Int
  | GridContent.grid _ _ sl => sl
  | _ => 0

/-- One lot cell as `buildGrid` constructs it: `Number(l) || 0`; zero
renders a blank span with class `zero`, otherwise the number with class
`positive`/`negative`. -/
def mkLotCell (structureName contract : String) (l : Rat) : Cell :=
  if l = 0 then
    { structureName, contract, text := "", cls := "zero",
      selected := false, disabled := false }
  else
    { structureName, contract, text := jsNumToString l,
      cls := if 0 < l then "positive" else "negative",
      selected := false, disabled := false }

/-- The lot cells of one row, contracts aligned by index
(`contracts[idx] || ''`). -/
def rowCells (contracts : List String) (r : Row) : List Cell :=
  r.lots.enum.map (fun p => mkLotCell r.name (contracts.getD p.1 "") p.2)

/--
`buildGrid(contracts, rows, restoreScrollLeft)` followed by the
`attachCellSelectionHandlers()` it ends with: the container is replaced
by a fresh grid, the scroll offset restored, `"Total"`-row cells get the
`total-row-disabled` class and no click handler, the selection panel is
emptied and `window._selectedCells` reset to `[]`.
-/
def buildGrid (st : PageState) (data : Snapshot) (restoreScrollLeft : Int) : PageState :=
  let cells := (data.rows.map (rowCells data.contracts)).flatten
  let cells := cells.map (fun c =>
    if c.structureName = "Total" then { c with disabled := true } else c)
  { st with dom := GridContent.grid data.contracts cells restoreScrollLeft,
            selectedCells := [], panel := [] }

/--
`loadPositions()` as a pure state transformer; `result` is the outcome
of fetching and decoding `/api/positions/{product}` (`Except.error msg`
covers transport failure, a non-ok status and JSON decode failure).
Mirrors the source line by line: fingerprint short-circuit, empty-result
placeholder (which *stores* the fingerprint), scroll preservation,
re-render via `buildGrid`, and the catch-all error placeholder.
-/
def loadPositions (st : PageState) (result : Except String Snapshot) : PageState :=
  match result with
  | Except.error msg =>
      { st with dom := GridContent.placeholder ("Error loading data: " ++ msg) }
  | Except.ok data =>
      if st.prevDataJSON = some (dataJSON data) then st
      else
        let oldScrollLeft := scrollLeftOf st.dom
        if data.contracts = [] ∧ data.rows = [] then
          { st with
              dom := GridContent.placeholder ("No positions found for " ++ st.product ++ "."),
              prevDataJSON := some (dataJSON data) }
        else
          { buildGrid st data oldScrollLeft with prevDataJSON := some (dataJSON data) }

/-- The synchronous part of the product selector's `change` handler:
clear the cached fingerprint, show the loading placeholder, switch the
product.  The `loadPositions()` it then fires is modelled as a separate
event. -/
def productChangeSync (st : PageState) (newProduct : String) : PageState :=
  { st with product := newProduct, prevDataJSON := none,
            dom := GridContent.placeholder "Loading…" }

/-- Set or remove the visual `selected` class on the grid cell(s) with
the given structure/contract pair (`classList.add/remove('selected')` on
the referenced element). -/
def setSelectedClass (dom : GridContent) (sName c : String) (b : Bool) : GridContent :=
  match dom with
  | GridContent.grid hs cells sl =>
      GridContent.grid hs
        (cells.map (fun cell =>
          if cell.structureName = sName ∧ cell.contract = c then
            { cell with selected := b } else cell)) sl
  | d => d

/-- Update a grid cell's span after an in-panel edit: `Number(v) || 0`;
zero blanks the span with class `zero`, otherwise text and signed class
(`renderSelectionPanel`'s `input.oninput`). -/
def setCellValueDisplay (dom : GridContent) (sName c : String) (q : Rat) : GridContent :=
  match dom with
  | GridContent.grid hs cells sl =>
      GridContent.grid hs
        (cells.map (fun cell =>
          if cell.structureName = sName ∧ cell.contract = c then
            if q = 0 then { cell with text := "", cls := "zero" }
            else { cell with text := jsNumToString q,
                             cls := if 0 < q then "positive" else "negative" }
          else cell)) sl
  | d => d

/-- Look up a rendered lot cell by its structure/contract pair. -/
def findCellPair (dom : GridContent) (sName c : String) : Option Cell :=
  (gridCells dom).find? (fun cell => cell.structureName = sName ∧ cell.contract = c)

/-- `clearSelection()`: remove the `selected` class from every cell
referenced by `_selectedCells`, reset the store to `[]` and empty the
panel. -/
def clearSelection (st : PageState) : PageState :=
  { st with
      dom := st.selectedCells.foldl
        (fun d s => setSelectedClass d s.structureName s.contract false) st.dom,
      selectedCells := [], panel := [] }

/-- `toggleCellSelection(cell)`: toggle membership of the cell's key in
`_selectedCells`, updating the cell's `selected` class, capturing the
displayed text (trimmed span content) as the initial editable value on
select, and re-rendering the panel. -/
def toggleCellSelection (st : PageState) (cell : Cell) : PageState :=
  let key := cellKey cell.structureName cell.contract
  match st.selectedCells.findIdx? (fun s => s.key = key) with
  | some i =>
      let dom' := match st.selectedCells.get? i with
        | some r => setSelectedClass st.dom r.structureName r.contract false
        | none => st.dom
      let sel' := st.selectedCells.eraseIdx i
      { st with dom := dom', selectedCells := sel', panel := sel' }
  | none =>
      let displayed := (trimChars cell.text.data).asString
      let entry : SelectedCell :=
        { key, structureName := cell.structureName, contract := cell.contract,
          value := displayed }
      let sel' := st.selectedCells ++ [entry]
      { st with dom := setSelectedClass st.dom cell.structureName cell.contract true,
                selectedCells := sel', panel := sel' }

/-- The panel item's remove button: drop the `selected` class on the
item's element, filter the store by key, re-render the panel. -/
def removeSelection (st : PageState) (key : String) : PageState :=
  match st.selectedCells.find? (fun s => s.key = key) with
  | none => st
  | some s =>
      let sel' := st.selectedCells.filter (fun x => ¬ (x.key = s.key))
      { st with dom := setSelectedClass st.dom s.structureName s.contract false,
                selectedCells := sel', panel := sel' }

/-- The panel item's `input.oninput`: store the raw text on the entry
and immediately refresh the grid cell's displayed value and styling. -/
def editSelection (st : PageState) (key : String) (raw : String) : PageState :=
  match st.selectedCells.find? (fun s => s.key = key) with
  | none => st
  | some s =>
      let sel' := st.selectedCells.map
        (fun x => if x.key = key then { x with value := raw } else x)
      { st with dom := setCellValueDisplay st.dom s.structureName s.contract (jsNumberD raw),
                selectedCells := sel', panel := sel' }

/-- User-interface and fetch-completion events driving the page. -/
inductive UIEvent where
  | click (structureName contract : String) (ctrl : Bool)
  | removeItem (key : String)
  | editInput (key : String) (raw : String)
  | load (result : Except String Snapshot)
  | productChange (newProduct : String)
deriving Repr

/--
One step of the page's event loop.  A `click` only does anything when a
matching cell is rendered, and `attachCellSelectionHandlers` attaches no
handler at all to cells of the row named `"Total"`, so a click there is
the identity; otherwise a plain click clears the whole selection first
and a ctrl-click preserves it (source lines 150–164).
-/
def uiStep (st : PageState) : UIEvent → PageState
  | UIEvent.click sName c ctrl =>
      match findCellPair st.dom sName c with
      | none => st
      | some cell =>
          if cell.structureName = "Total" then st
          else toggleCellSelection (if ctrl then st else clearSelection st) cell
  | UIEvent.removeItem key => removeSelection st key
  | UIEvent.editInput key raw => editSelection st key raw
  | UIEvent.load r => loadPositions st r
  | UIEvent.productChange p => productChangeSync st p

/-- Run a sequence of events from a state. -/
def uiRun (st : PageState) (evs : List UIEvent) : PageState :=
  evs.foldl uiStep st

/-- The body of `POST /api/implement_hedge`. -/
structure HedgePayload where
  product : String
  lis_structure_names : List String
  lis_starting_contracts : List String
  lis_num_lots : List Int
deriving DecidableEq, Repr

/-- `parseInt(String(s.value).trim(), 10) || 0` (the `NaN` fallback). -/
def numLotOf (v : String) : Int := (jsParseInt10 ((trimChars v.data).asString)).getD 0

/-- The `forEach` push loop over `_selectedCells` building the three
payload arrays. -/
def pushCells : List SelectedCell → List String × List String × List Int →
    List String × List String × List Int
  | [], acc => acc
  | s :: rest, (ns, cs, ls) =>
      pushCells rest (ns ++ [s.structureName], cs ++ [s.contract], ls ++ [numLotOf s.value])

/-- The HedgeRequest built at submission time from the current store. -/
def buildPayload (st : PageState) : HedgePayload :=
  let acc := pushCells st.selectedCells ([], [], [])
  { product := st.product,
    lis_structure_names := acc.1,
    lis_starting_contracts := acc.2.1,
    lis_num_lots := acc.2.2 }

/-- Flat JS values (those arising as `eval` results and strategy
patterns here; nested arrays never occur in the inputs considered). -/
inductive JSAtom where
  | num (q : Rat)
  | str (s : String)
  | boolV (b : Bool)
  | nullV
deriving DecidableEq, Repr

/-- A JS value as checked by the protocol's `Array.isArray` test. -/
inductive JSVal where
  | atom (a : JSAtom)
  | arr (elems : List JSAtom)
deriving DecidableEq, Repr

/-- `Array.isArray` — the only validation the source performs on the
operator-typed pattern. -/
def isJSArray : JSVal → Bool
  | JSVal.arr _ => true
  | _ => false

/-- Modelled from the spec: the strict numeric-array parser that §9 and
§4.4 state 2 require for operator-typed patterns (reject non-array,
non-numeric or malformed input); absent from `src/frontend/app.js`,
which uses `eval` plus `Array.isArray` instead. -/
def isStrictNumericArray : JSVal → Bool
  | JSVal.arr es => es.all (fun a => match a with | JSAtom.num _ => true | _ => false)
  | _ => false

/-- The JSON body of an `implement_hedge` response, by the cases the
client distinguishes. -/
inductive HedgeResp where
  | ok (hedged_name base_contract : String) (hedged_lots : Rat)
  | errMissing (missing : List String)
  | errPattern (pattern : List Rat)
  | errOther (msg : String)
deriving DecidableEq, Repr

/-- Whether `resp.ok` held for the HTTP response. -/
def HedgeResp.isOkB : HedgeResp → Bool
  | HedgeResp.ok _ _ _ => true
  | _ => false

/-- The `data.error` string of a failed response (`missing_strategies`
and `missing_hedged_pattern` carry their kind as the error string). -/
def HedgeResp.errField : HedgeResp → String
  | HedgeResp.ok _ _ _ => ""
  | HedgeResp.errMissing _ => "missing_strategies"
  | HedgeResp.errPattern _ => "missing_hedged_pattern"
  | HedgeResp.errOther m => m

/-- `retryData.error || 'Implement hedge failed on retry'`. -/
def retryErrMsg (r : HedgeResp) : String :=
  if r.errField = "" then "Implement hedge failed on retry" else r.errField

/-- A `create_strategy` response. -/
inductive CreateResp where
  | ok
  | err (msg : String)
deriving DecidableEq, Repr

/-- `createData.error || ('Failed to create strategy ' + name)`. -/
def createErrMsg (name msg : String) : String :=
  if msg = "" then "Failed to create strategy " ++ name else msg

/-- The environment of one `applyHedgeFromSelection` run: backend
responses, operator prompt answers, the result of `eval` on the
operator's pattern text (`none` = the evaluation threw), and the
positions fetch performed by the success path's `loadPositions()`. -/
structure HedgeEnv where
  submitResp : HedgeResp
  promptMissing : String → Option String
  evalJS : String → Option JSVal
  createResp : String → JSVal → CreateResp
  promptHedgedName : Option String
  retryResp : HedgeResp
  fetchResult : Except String Snapshot

/-- Observable events of a hedge run, in order. -/
inductive HedgeEvent where
  | implementHedge (payload : HedgePayload)
  | createStrategy (name : String) (pattern : JSVal)
  | fetchPositions
  | logMsg (msg : String)
  | alertMsg (msg : String)
deriving DecidableEq, Repr

/-- Is the event an `implement_hedge` POST? -/
def isImplEv : HedgeEvent → Bool
  | HedgeEvent.implementHedge _ => true
  | _ => false

/-- Is the event a `create_strategy` POST? -/
def isCreateEv : HedgeEvent → Bool
  | HedgeEvent.createStrategy _ _ => true
  | _ => false

/-- Outcome of the interactive missing-strategies loop: the accumulated
events on success, or the thrown error message with the events emitted
up to the throw. -/
inductive ResolveResult where
  | ok (evs : List HedgeEvent)
  | err (msg : String) (evs : List HedgeEvent)
deriving DecidableEq, Repr

/--
The `for (const missingName of data.missing)` loop: prompt (null ⇒
`'Operation cancelled by user'`), `eval` the text and require an array
(otherwise `'Invalid pattern provided for ' + name`), POST
`create_strategy` and stop on its failure; otherwise continue with the
remaining names.
-/
def resolveMissing (env : HedgeEnv) : List String → List HedgeEvent → ResolveResult
  | [], evs => ResolveResult.ok evs
  | name :: rest, evs =>
      match env.promptMissing name with
      | none => ResolveResult.err "Operation cancelled by user" evs
      | some input =>
          match env.evalJS input with
          | none => ResolveResult.err ("Invalid pattern provided for " ++ name) evs
          | some pat =>
              if isJSArray pat then
                let evs' := evs ++ [HedgeEvent.createStrategy name pat]
                match env.createResp name pat with
                | CreateResp.ok => resolveMissing env rest evs'
                | CreateResp.err m => ResolveResult.err (createErrMsg name m) evs'
              else ResolveResult.err ("Invalid pattern provided for " ++ name) evs

/-- The success path shared by states 1 and 4: `clearSelection()`,
`await loadPositions()` (a fresh positions fetch), `console.log` of the
applied hedge facts. -/
def hedgeSuccess (env : HedgeEnv) (st : PageState) (name base : String) (lots : Rat)
    (evs : List HedgeEvent) : PageState × List HedgeEvent :=
  (loadPositions (clearSelection st) env.fetchResult,
   evs ++ [HedgeEvent.fetchPositions,
           HedgeEvent.logMsg ("Hedge applied: " ++ name ++ " @ " ++ base ++
             " (+" ++ jsNumToString lots ++ ")")])

/--
`applyHedgeFromSelection()`: no-op on an empty store; otherwise build
the payload, POST it, and dispatch on the response: success path;
`missing_strategies` resolution then a single retry; alternatively the
`missing_hedged_pattern` prompt, creation and single retry; any other
failure, and every thrown error, ends in `alert('Error: ' + message)`
with the page state untouched.
-/
def applyHedgeFromSelection (env : HedgeEnv) (st : PageState) :
    PageState × List HedgeEvent :=
  if st.selectedCells = [] then (st, [])
  else
    let payload := buildPayload st
    let evs0 := [HedgeEvent.implementHedge payload]
    match env.submitResp with
    | HedgeResp.ok n b l => hedgeSuccess env st n b l evs0
    | HedgeResp.errMissing missing =>
        match resolveMissing env missing evs0 with
        | ResolveResult.err msg evs =>
            (st, evs ++ [HedgeEvent.alertMsg ("Error: " ++ msg)])
        | ResolveResult.ok evs =>
            let evs2 := evs ++ [HedgeEvent.implementHedge payload]
            match env.retryResp with
            | HedgeResp.ok n b l => hedgeSuccess env st n b l evs2
            | r => (st, evs2 ++ [HedgeEvent.alertMsg ("Error: " ++ retryErrMsg r)])
    | HedgeResp.errPattern pattern =>
        match env.promptHedgedName with
        | none => (st, evs0 ++ [HedgeEvent.alertMsg "Error: Operation cancelled by user"])
        | some suggested =>
            let pj := JSVal.arr (pattern.map JSAtom.num)
            let evs1 := evs0 ++ [HedgeEvent.createStrategy suggested pj]
            match env.createResp suggested pj with
            | CreateResp.err m =>
                (st, evs1 ++ [HedgeEvent.alertMsg ("Error: " ++ createErrMsg suggested m)])
            | CreateResp.ok =>
                let evs2 := evs1 ++ [HedgeEvent.implementHedge payload]
                match env.retryResp with
                | HedgeResp.ok n b l => hedgeSuccess env st n b l evs2
                | r => (st, evs2 ++ [HedgeEvent.alertMsg ("Error: " ++ retryErrMsg r)])
    | HedgeResp.errOther msg =>
        (st, evs0 ++ [HedgeEvent.alertMsg
          ("Error: " ++ (if msg = "" then "Implement hedge failed" else msg))])

/-- The concurrency skeleton of the fetch machinery: the `_isLoading`
single-flight flag, whether a timer-tick fetch is in flight, how many
unguarded (product-change or post-hedge) fetches are in flight, and how
many interval timers exist. -/
structure PollState where
  isLoading : Bool
  tickFetch : Bool
  oobFetches : Nat
  timerCount : Nat
deriving DecidableEq, Repr

/-- Scheduler events of the fetch machinery. -/
inductive PollEvent where
  | tickFire
  | tickComplete
  | productChange
  | hedgeRefresh
  | oobComplete
deriving DecidableEq, Repr

/--
One scheduler step.  A firing tick checks `_isLoading` and is skipped
outright when set, else sets it and starts a fetch, clearing the flag in
`finally` on completion (lines 47–59).  The product-change handler
(lines 64–68) and the post-hedge `await loadPositions()` (lines 337,
366, 377) start a fetch without consulting or setting the flag, and
neither clears nor re-registers the interval timer.
-/
def pollStep (st : PollState) : PollEvent → PollState
  | PollEvent.tickFire =>
      if st.isLoading then st else { st with isLoading := true, tickFetch := true }
  | PollEvent.tickComplete =>
      if st.tickFetch then { st with isLoading := false, tickFetch := false } else st
  | PollEvent.productChange => { st with oobFetches := st.oobFetches + 1 }
  | PollEvent.hedgeRefresh => { st with oobFetches := st.oobFetches + 1 }
  | PollEvent.oobComplete =>
      { st with oobFetches := st.oobFetches - 1 }

/-- Scheduler state right after `DOMContentLoaded` ran `pollLoop(1000)`:
one interval timer, no fetch in flight. -/
def pollInit : PollState :=
  { isLoading := false, tickFetch := false, oobFetches := 0, timerCount := 1 }

/-- Run a sequence of scheduler events. -/
def pollRun (st : PollState) (evs : List PollEvent) : PollState :=
  evs.foldl pollStep st

/-- Number of snapshot fetches currently in flight. -/
def inflight (st : PollState) : Nat :=
  (if st.tickFetch then 1 else 0) + st.oobFetches

/-! ### Helper lemmas -/

/-- A successful positions fetch always leaves the fetched snapshot's
fingerprint in the cache slot (early-return, empty and rebuild branches
alike). -/
lemma loadPositions_ok_prev (st : PageState) (d : Snapshot) :
    (loadPositions st (Except.ok d)).prevDataJSON = some (dataJSON d) := by
  simp only [loadPositions]
  split_ifs with h1 h2
  · exact h1
  · rfl
  · rfl

/-- A failed positions fetch leaves the fingerprint slot unchanged. -/
lemma loadPositions_error_prev (st : PageState) (m : String) :
    (loadPositions st (Except.error m)).prevDataJSON = st.prevDataJSON := rfl

/-- `loadPositions` either keeps the selection store or resets it. -/
lemma loadPositions_sel (st : PageState) (r : Except String Snapshot) :
    (loadPositions st r).selectedCells = st.selectedCells ∨
    (loadPositions st r).selectedCells = [] := by
  cases r with
  | error m => exact Or.inl rfl
  | ok d =>
      simp only [loadPositions]
      split_ifs with h1 h2
      · exact Or.inl rfl
      · exact Or.inl rfl
      · exact Or.inr rfl

/-- If the store is already empty, no fetch outcome repopulates it. -/
lemma loadPositions_sel_empty (st : PageState) (r : Except String Snapshot)
    (h : st.selectedCells = []) : (loadPositions st r).selectedCells = [] := by
  rcases loadPositions_sel st r with h' | h'
  · rw [h', h]
  · exact h'

/-- `clearSelection` empties the store. -/
lemma clearSelection_sel (st : PageState) : (clearSelection st).selectedCells = [] := rfl

/-- A successful missing-strategies resolution only appends
`create_strategy` events to the trace. -/
lemma resolveMissing_ok_shape (env : HedgeEnv) :
    ∀ (names : List String) (evs evs' : List HedgeEvent),
      resolveMissing env names evs = ResolveResult.ok evs' →
      ∃ tail, evs' = evs ++ tail ∧ ∀ e ∈ tail, isCreateEv e = true := by
  intro names
  induction names with
  | nil =>
      intro evs evs' h
      simp only [resolveMissing] at h
      exact ⟨[], by simpa using h.symm, by simp⟩
  | cons name rest ih =>
      intro evs evs' h
      simp only [resolveMissing] at h
      cases hp : env.promptMissing name with
      | none => simp only [hp] at h; exact absurd h (by simp)
      | some input =>
          simp only [hp] at h
          cases he : env.evalJS input with
          | none => simp only [he] at h; exact absurd h (by simp)
          | some pat =>
              simp only [he] at h
              by_cases ha : isJSArray pat = true
              · rw [if_pos ha] at h
                cases hc : env.createResp name pat with
                | ok =>
                    simp only [hc] at h
                    obtain ⟨tail, htl, hall⟩ := ih _ _ h
                    refine ⟨HedgeEvent.createStrategy name pat :: tail, ?_, ?_⟩
                    · simpa using htl
                    · intro e he'
                      rcases List.mem_cons.mp he' with rfl | hm
                      · rfl
                      · exact hall e hm
                | err m => simp only [hc] at h; exact absurd h (by simp)
              · rw [if_neg ha] at h; exact absurd h (by simp)

/-- The single-flight flag covers every timer-initiated fetch: a tick
fetch can only be in flight while `_isLoading` is set. -/
lemma pollStep_inv (st : PollState) (e : PollEvent)
    (h : st.tickFetch = true → st.isLoading = true) :
    (pollStep st e).tickFetch = true → (pollStep st e).isLoading = true := by
  cases e <;> simp only [pollStep] <;> (try split_ifs) <;> simp_all

/-- The tick-guard invariant holds along every scheduler trace. -/
lemma pollRun_inv (evs : List PollEvent) :
    (pollRun pollInit evs).tickFetch = true → (pollRun pollInit evs).isLoading = true := by
  suffices h : ∀ (st : PollState), (st.tickFetch = true → st.isLoading = true) →
      (pollRun st evs).tickFetch = true → (pollRun st evs).isLoading = true by
    exact h pollInit (by intro h'; exact absurd h' (by simp [pollInit]))
  induction evs with
  | nil => intro st h; exact h
  | cons e rest ih =>
      intro st h
      exact ih (pollStep st e) (pollStep_inv st e h)

/-- The payload-array loop is the three positional projections of the
store, in store order. -/
lemma pushCells_eq (l : List SelectedCell) :
    ∀ ns cs ls, pushCells l (ns, cs, ls) =
      (ns ++ l.map (fun s => s.structureName),
       cs ++ l.map (fun s => s.contract),
       ls ++ l.map (fun s => numLotOf s.value)) := by
  induction l with
  | nil => intro ns cs ls; simp [pushCells]
  | cons s rest ih => intro ns cs ls; simp [pushCells, ih]

/-- The store never holds an entry for the `"Total"` row: preservation
by a single toggle on a non-`"Total"` cell. -/
lemma toggle_totalfree (st : PageState) (cell : Cell)
    (hc : cell.structureName ≠ "Total")
    (h : ∀ s ∈ st.selectedCells, s.structureName ≠ "Total") :
    ∀ s ∈ (toggleCellSelection st cell).selectedCells, s.structureName ≠ "Total" := by
  simp only [toggleCellSelection]
  cases hidx : st.selectedCells.findIdx? (fun s => s.key = cellKey cell.structureName cell.contract) with
  | some i =>
      intro s hs
      exact h s ((List.eraseIdx_sublist st.selectedCells i).mem hs)
  | none =>
      intro s hs
      rcases List.mem_append.mp hs with hm | hm
      · exact h s hm
      · simp only [List.mem_singleton] at hm
        rw [hm]
        exact hc

/-- The store never holds an entry for the `"Total"` row: preservation
by any single UI event. -/
lemma uiStep_totalfree (st : PageState) (e : UIEvent)
    (h : ∀ s ∈ st.selectedCells, s.structureName ≠ "Total") :
    ∀ s ∈ (uiStep st e).selectedCells, s.structureName ≠ "Total" := by
  cases e with
  | click sName c ctrl =>
      simp only [uiStep]
      cases hfind : findCellPair st.dom sName c with
      | none => exact h
      | some cell =>
          show ∀ s ∈ (if cell.structureName = "Total" then st
            else toggleCellSelection (if ctrl = true then st else clearSelection st)
              cell).selectedCells, s.structureName ≠ "Total"
          by_cases ht : cell.structureName = "Total"
          · rw [if_pos ht]; exact h
          · rw [if_neg ht]
            refine toggle_totalfree _ cell ht ?_
            cases ctrl with
            | true => simpa using h
            | false =>
                intro s hs
                simp only [if_neg (by simp : ¬(false = true)), clearSelection_sel] at hs
                exact absurd hs (List.not_mem_nil s)
  | removeItem key =>
      simp only [uiStep, removeSelection]
      cases hf : st.selectedCells.find? (fun s => s.key = key) with
      | none => exact h
      | some s0 =>
          intro s hs
          exact h s (List.mem_of_mem_filter hs)
  | editInput key raw =>
      simp only [uiStep, editSelection]
      cases hf : st.selectedCells.find? (fun s => s.key = key) with
      | none => exact h
      | some s0 =>
          intro s hs
          rcases List.mem_map.mp hs with ⟨x, hx, hxe⟩
          by_cases hk : x.key = key
          · rw [if_pos hk] at hxe; rw [← hxe]; exact h x hx
          · rw [if_neg hk] at hxe; rw [← hxe]; exact h x hx
  | load r =>
      intro s hs
      rcases loadPositions_sel st r with h' | h'
      · rw [show uiStep st (UIEvent.load r) = loadPositions st r from rfl] at hs
        rw [h'] at hs
        exact h s hs
      · rw [show uiStep st (UIEvent.load r) = loadPositions st r from rfl] at hs
        rw [h'] at hs
        exact absurd hs (List.not_mem_nil s)
  | productChange p => exact h

/-- The store never holds an entry for the `"Total"` row, along every
event trace from page load. -/
lemma uiRun_totalfree (evs : List UIEvent) :
    ∀ s ∈ (uiRun pageInit evs).selectedCells, s.structureName ≠ "Total" := by
  suffices h : ∀ (st : PageState), (∀ s ∈ st.selectedCells, s.structureName ≠ "Total") →
      ∀ s ∈ (uiRun st evs).selectedCells, s.structureName ≠ "Total" by
    refine h pageInit ?_
    intro s hs
    exact absurd hs (List.not_mem_nil s)
  induction evs with
  | nil => intro st h; exact h
  | cons e rest ih =>
      intro st h
      exact ih (uiStep st e) (uiStep_totalfree st e h)

/-- If the cached fingerprint already equals the fetched snapshot's,
`loadPositions` returns before touching anything (source line 22). -/
lemma loadPositions_skip (st : PageState) (d : Snapshot)
    (h : st.prevDataJSON = some (dataJSON d)) :
    loadPositions st (Except.ok d) = st := by
  simp only [loadPositions]
  rw [if_pos h]

/-! ### Concrete fixtures for witnesses and counterexamples -/

/-- A one-row, one-contract snapshot. -/
def snapA : Snapshot := ⟨["JAN"], [⟨"A", [1]⟩]⟩

/-- A selected cell of that snapshot with edited value `"5"`. -/
def selA : SelectedCell := ⟨"A||JAN", "A", "JAN", "5"⟩

/-- A page whose last *rendered* snapshot is `snapA` but whose grid was
since replaced by a fetch-error placeholder (a failed poll tick
overwrites the container but leaves `_prevDataJSON` untouched), with one
cell still selected. -/
def stC1 : PageState :=
  { product := "CL", prevDataJSON := some snapA,
    dom := GridContent.placeholder "Error loading data: network",
    selectedCells := [selA], panel := [selA] }

/-- A backend that accepts the hedge outright and, on the post-hedge
positions fetch, returns a snapshot identical to the cached one. -/
def envC1 : HedgeEnv :=
  { submitResp := HedgeResp.ok "H" "JAN" 5,
    promptMissing := fun _ => none,
    evalJS := fun _ => none,
    createResp := fun _ _ => CreateResp.ok,
    promptHedgedName := none,
    retryResp := HedgeResp.errOther "",
    fetchResult := Except.ok snapA }

/-- A page with one selected cell whose edit box holds `"12abc"`. -/
def st9 : PageState :=
  { product := "CL", prevDataJSON := some snapA,
    dom := GridContent.grid ["JAN"]
      [{ structureName := "A", contract := "JAN", text := "5", cls := "positive",
         selected := true, disabled := false }] 0,
    selectedCells := [⟨"A||JAN", "A", "JAN", "12abc"⟩],
    panel := [⟨"A||JAN", "A", "JAN", "12abc"⟩] }

/-- A page showing `snapA` with one cell selected, about to receive an
empty snapshot. -/
def st10 : PageState :=
  { product := "CL", prevDataJSON := some snapA,
    dom := GridContent.grid ["JAN"]
      [{ structureName := "A", contract := "JAN", text := "1", cls := "positive",
         selected := true, disabled := false }] 0,
    selectedCells := [selA], panel := [selA] }

/-! ### Claims -/

/--
C5, counterexample.  The claim asserts at most one snapshot fetch in
flight at every point of every interleaving of timer ticks,
product-change events and post-hedge refreshes.  But the product-change
handler (source lines 64–68) calls `loadPositions()` without consulting
or setting `_isLoading`, so a timer tick firing while that fetch is in
flight starts a second one: after `[productChange, tickFire]` two
fetches are in flight.
-/
theorem C5_counterexample :
    inflight (pollRun pollInit [PollEvent.productChange, PollEvent.tickFire]) = 2 ∧
    ¬ inflight (pollRun pollInit [PollEvent.productChange, PollEvent.tickFire]) ≤ 1 := by
  constructor <;> decide

/--
C5, amended.  Along every scheduler trace: a timer-initiated fetch is in
flight only while `_isLoading` is set, and a tick firing while
`_isLoading` is set is skipped entirely (the state is unchanged — no
queuing, no overlap between tick fetches); a product change triggers its
fetch out of band — it neither resets nor duplicates the interval timer
and simply adds one unguarded in-flight fetch (which is how the original
at-most-one-in-flight claim fails).
-/
theorem C5_tick_single_flight : ∀ evs : List PollEvent,
    ((pollRun pollInit evs).tickFetch = true → (pollRun pollInit evs).isLoading = true) ∧
    ((pollRun pollInit evs).isLoading = true →
      pollStep (pollRun pollInit evs) PollEvent.tickFire = pollRun pollInit evs) ∧
    (pollStep (pollRun pollInit evs) PollEvent.productChange).timerCount =
      (pollRun pollInit evs).timerCount ∧
    inflight (pollStep (pollRun pollInit evs) PollEvent.productChange) =
      inflight (pollRun pollInit evs) + 1 := by
  intro evs
  refine ⟨pollRun_inv evs, ?_, rfl, ?_⟩
  · intro h
    simp [pollStep, h]
  · simp only [pollStep, inflight]
    split_ifs <;> omega

/-- C5 witness: after one tick fires, the guard is set and a second tick
is skipped; a product change leaves the timer count alone. -/
theorem C5_tick_single_flight_witness :
    pollStep (pollRun pollInit [PollEvent.tickFire]) PollEvent.tickFire =
      pollRun pollInit [PollEvent.tickFire] ∧
    (pollStep (pollRun pollInit [PollEvent.tickFire]) PollEvent.productChange).timerCount =
      (pollRun pollInit [PollEvent.tickFire]).timerCount :=
  ⟨(C5_tick_single_flight [PollEvent.tickFire]).2.1 (by decide),
   (C5_tick_single_flight [PollEvent.tickFire]).2.2.1⟩

/--
C6.  If two consecutively fetched snapshots have equal fingerprints,
rendering the second after the first changes nothing at all: the page
state (grid DOM with its scroll offset, selection store, panel,
fingerprint cache) after the second `loadPositions` equals the state
after the first, so no DOM mutation occurs and scroll, selection and
in-flight edits are untouched.
-/
theorem C6_equal_fingerprint_no_rerender :
    ∀ (st : PageState) (s1 s2 : Snapshot), dataJSON s2 = dataJSON s1 →
      loadPositions (loadPositions st (Except.ok s1)) (Except.ok s2) =
        loadPositions st (Except.ok s1) := by
  intro st s1 s2 h
  have h' : s2 = s1 := h
  subst h'
  exact loadPositions_skip _ _ (loadPositions_ok_prev st s2)

/-- C6 witness at a concrete snapshot pair. -/
theorem C6_equal_fingerprint_no_rerender_witness :
    loadPositions (loadPositions pageInit (Except.ok snapA)) (Except.ok snapA) =
      loadPositions pageInit (Except.ok snapA) :=
  C6_equal_fingerprint_no_rerender pageInit snapA snapA rfl

/--
C7, counterexample.  The claim says the fingerprint slot is cleared
(reset to "none") whenever an empty result is rendered.  In the source
the empty-result branch (lines 28–31) *stores* the empty snapshot's
fingerprint instead: from the initial state, rendering an empty snapshot
shows the "no positions" placeholder and leaves the slot holding that
fingerprint, not "none".
-/
theorem C7_counterexample :
    (loadPositions pageInit (Except.ok ⟨[], []⟩)).dom =
      GridContent.placeholder "No positions found for CL." ∧
    (loadPositions pageInit (Except.ok ⟨[], []⟩)).prevDataJSON ≠ none := by
  constructor <;> decide

/--
C7, amended.  The last-rendered fingerprint is a single per-page slot
initialized to "none" and cleared exactly when the product selection
changes; every successful fetch — the empty-result rendering included —
stores the fetched snapshot's fingerprint, and a failed fetch leaves the
slot unchanged.
-/
theorem C7_fingerprint_lifecycle :
    pageInit.prevDataJSON = none ∧
    (∀ (st : PageState) (p : String), (productChangeSync st p).prevDataJSON = none) ∧
    (∀ (st : PageState) (d : Snapshot),
      (loadPositions st (Except.ok d)).prevDataJSON = some (dataJSON d)) ∧
    (∀ (st : PageState) (m : String),
      (loadPositions st (Except.error m)).prevDataJSON = st.prevDataJSON) :=
  ⟨rfl, fun _ _ => rfl, loadPositions_ok_prev, loadPositions_error_prev⟩

/--
C9, counterexample.  The claim says the `numLots` entries are produced
"under the same parsing policy used for in-panel edits (non-numeric or
empty input treated as zero)".  Submission uses
`parseInt(String(v).trim(), 10) || 0` (line 284) while in-panel edits
use `Number(v) || 0` (line 234): on the raw value `"12abc"` submission
produces `12`, whereas the panel policy treats it as non-numeric and
yields `0`.
-/
theorem C9_counterexample :
    (buildPayload st9).lis_num_lots = [12] ∧ jsNumberD "12abc" = 0 := by
  constructor <;> decide

/--
C9, amended.  At submission time the three payload sequences are the
positional projections of the store in store order — one entry per
SelectedCell — and each `numLots` entry is `parseInt(trim(raw), 10)`
(leading-integer parse) defaulting to 0 when no leading integer exists.
This parseInt policy differs from the panel's `Number`-based policy,
which zeroes any input that is not numeric in full (e.g. `"12abc"`).
-/
theorem C9_payload_construction : ∀ st : PageState,
    buildPayload st =
      { product := st.product,
        lis_structure_names := st.selectedCells.map (fun s => s.structureName),
        lis_starting_contracts := st.selectedCells.map (fun s => s.contract),
        lis_num_lots := st.selectedCells.map (fun s => numLotOf s.value) } := by
  intro st
  simp [buildPayload, pushCells_eq]

/--
C10, counterexample.  The claim says every render of a snapshot with a
differing fingerprint resets the SelectionStore and clears the panel.
Rendering an *empty* snapshot (differing fingerprint) takes the
empty-result branch (lines 28–31), which replaces the grid with the
"no positions" placeholder but never calls
`attachCellSelectionHandlers`: the store and panel keep their stale
entries.
-/
theorem C10_counterexample :
    st10.prevDataJSON ≠ some (dataJSON ⟨[], []⟩) ∧
    (loadPositions st10 (Except.ok ⟨[], []⟩)).dom =
      GridContent.placeholder "No positions found for CL." ∧
    (loadPositions st10 (Except.ok ⟨[], []⟩)).selectedCells = [selA] ∧
    (loadPositions st10 (Except.ok ⟨[], []⟩)).panel = [selA] := by
  refine ⟨by decide, by decide, by decide, by decide⟩

/--
C10, amended.  Every non-empty grid re-render — a snapshot with a
differing fingerprint and at least one contract or row, which goes
through `buildGrid` and the `attachCellSelectionHandlers` it ends with —
unconditionally resets the SelectionStore to empty and clears the
selection panel; rendering an empty snapshot leaves both untouched.
-/
theorem C10_rebuild_resets_selection :
    ∀ (st : PageState) (d : Snapshot),
      ¬ (d.contracts = [] ∧ d.rows = []) →
      st.prevDataJSON ≠ some (dataJSON d) →
      (loadPositions st (Except.ok d)).selectedCells = [] ∧
      (loadPositions st (Except.ok d)).panel = [] := by
  intro st d hne hprev
  simp only [loadPositions]
  rw [if_neg hprev, if_neg hne]
  exact ⟨rfl, rfl⟩

/-- C10 witness: re-rendering a non-empty snapshot over a populated
selection empties store and panel. -/
theorem C10_rebuild_resets_selection_witness :
    (loadPositions st10 (Except.ok ⟨["FEB"], [⟨"B", [2]⟩]⟩)).selectedCells = [] ∧
    (loadPositions st10 (Except.ok ⟨["FEB"], [⟨"B", [2]⟩]⟩)).panel = [] :=
  C10_rebuild_resets_selection st10 ⟨["FEB"], [⟨"B", [2]⟩]⟩ (by decide) (by decide)

/--
C1, counterexample.  The claim says an accepted submission forces an
unconditional re-fetch *and re-render* of positions bypassing the
fingerprint short-circuit.  The success path (lines 375–378) calls
`loadPositions()` without clearing `window._prevDataJSON`, so the
fingerprint short-circuit stays in force: here the page last *rendered*
`snapA` (cached fingerprint) but currently shows a fetch-error
placeholder; the hedge is accepted, the re-fetch returns `snapA` again,
and `loadPositions` returns at line 22 — the stale error placeholder
stays on screen, no re-render happens.  (The selection is cleared and
the re-fetch does occur.)
-/
theorem C1_counterexample :
    (applyHedgeFromSelection envC1 stC1).1.dom =
      GridContent.placeholder "Error loading data: network" ∧
    (applyHedgeFromSelection envC1 stC1).1.selectedCells = [] ∧
    HedgeEvent.fetchPositions ∈ (applyHedgeFromSelection envC1 stC1).2 := by
  refine ⟨by decide, by decide, by decide⟩

/-- Backend rejecting with `missing_strategies: ["X"]`; the operator
supplies pattern `[1,-1]`, creation succeeds and the single retry is
*accepted*. -/
def envC1b : HedgeEnv :=
  { submitResp := HedgeResp.errMissing ["X"],
    promptMissing := fun _ => some "[1,-1]",
    evalJS := fun _ => some (JSVal.arr [JSAtom.num 1, JSAtom.num (-1)]),
    createResp := fun _ _ => CreateResp.ok,
    promptHedgedName := none,
    retryResp := HedgeResp.ok "H" "JAN" 5,
    fetchResult := Except.ok snapA }

/-- Backend rejecting with `missing_hedged_pattern`; the operator names
the pattern `"N"`, creation succeeds and the single retry is
*accepted*. -/
def envC1c : HedgeEnv :=
  { envC1b with submitResp := HedgeResp.errPattern [1, -1],
                promptHedgedName := some "N" }

/--
C1, amended.  For every hedge submission the backend accepts — on the
first submit, or on the single retry after missing-strategies
resolution, or on the single retry after missing-hedged-pattern
creation (the three success paths at lines 375–378, 336–338 and
365–367) — the protocol clears the SelectionStore to empty, issues an
unconditional re-fetch of positions whose re-render is subject to the
normal fingerprint short-circuit (no re-render when the fetched
snapshot's fingerprint equals the cached one), and logs an
operator-visible confirmation containing the hedge name, base contract
and lot delta.
-/
theorem C1_success_path :
    ∀ (env : HedgeEnv) (st : PageState) (n b : String) (l : Rat),
      st.selectedCells ≠ [] →
      ((env.submitResp = HedgeResp.ok n b l →
          applyHedgeFromSelection env st =
            (loadPositions (clearSelection st) env.fetchResult,
             [HedgeEvent.implementHedge (buildPayload st), HedgeEvent.fetchPositions,
              HedgeEvent.logMsg ("Hedge applied: " ++ n ++ " @ " ++ b ++
                " (+" ++ jsNumToString l ++ ")")]) ∧
          (applyHedgeFromSelection env st).1.selectedCells = []) ∧
       (∀ (ms : List String) (evs' : List HedgeEvent),
          env.submitResp = HedgeResp.errMissing ms →
          resolveMissing env ms [HedgeEvent.implementHedge (buildPayload st)] =
            ResolveResult.ok evs' →
          env.retryResp = HedgeResp.ok n b l →
          applyHedgeFromSelection env st =
            (loadPositions (clearSelection st) env.fetchResult,
             evs' ++ [HedgeEvent.implementHedge (buildPayload st),
                      HedgeEvent.fetchPositions,
                      HedgeEvent.logMsg ("Hedge applied: " ++ n ++ " @ " ++ b ++
                        " (+" ++ jsNumToString l ++ ")")]) ∧
          (applyHedgeFromSelection env st).1.selectedCells = []) ∧
       (∀ (pat : List Rat) (name : String),
          env.submitResp = HedgeResp.errPattern pat →
          env.promptHedgedName = some name →
          env.createResp name (JSVal.arr (pat.map JSAtom.num)) = CreateResp.ok →
          env.retryResp = HedgeResp.ok n b l →
          applyHedgeFromSelection env st =
            (loadPositions (clearSelection st) env.fetchResult,
             [HedgeEvent.implementHedge (buildPayload st),
              HedgeEvent.createStrategy name (JSVal.arr (pat.map JSAtom.num)),
              HedgeEvent.implementHedge (buildPayload st),
              HedgeEvent.fetchPositions,
              HedgeEvent.logMsg ("Hedge applied: " ++ n ++ " @ " ++ b ++
                " (+" ++ jsNumToString l ++ ")")]) ∧
          (applyHedgeFromSelection env st).1.selectedCells = [])) := by
  intro env st n b l hne
  refine ⟨?_, ?_, ?_⟩
  · intro hsub
    have h1 : applyHedgeFromSelection env st =
        (loadPositions (clearSelection st) env.fetchResult,
         [HedgeEvent.implementHedge (buildPayload st), HedgeEvent.fetchPositions,
          HedgeEvent.logMsg ("Hedge applied: " ++ n ++ " @ " ++ b ++
            " (+" ++ jsNumToString l ++ ")")]) := by
      simp only [applyHedgeFromSelection, hsub]
      rw [if_neg hne]
      rfl
    refine ⟨h1, ?_⟩
    rw [h1]
    exact loadPositions_sel_empty _ _ (clearSelection_sel st)
  · intro ms evs' hsub hres hretry
    have h1 : applyHedgeFromSelection env st =
        (loadPositions (clearSelection st) env.fetchResult,
         evs' ++ [HedgeEvent.implementHedge (buildPayload st),
                  HedgeEvent.fetchPositions,
                  HedgeEvent.logMsg ("Hedge applied: " ++ n ++ " @ " ++ b ++
                    " (+" ++ jsNumToString l ++ ")")]) := by
      simp only [applyHedgeFromSelection, hsub]
      rw [if_neg hne]
      simp only [hres, hretry]
      simp [hedgeSuccess, List.append_assoc]
    refine ⟨h1, ?_⟩
    rw [h1]
    exact loadPositions_sel_empty _ _ (clearSelection_sel st)
  · intro pat name hsub hprompt hcreate hretry
    have h1 : applyHedgeFromSelection env st =
        (loadPositions (clearSelection st) env.fetchResult,
         [HedgeEvent.implementHedge (buildPayload st),
          HedgeEvent.createStrategy name (JSVal.arr (pat.map JSAtom.num)),
          HedgeEvent.implementHedge (buildPayload st),
          HedgeEvent.fetchPositions,
          HedgeEvent.logMsg ("Hedge applied: " ++ n ++ " @ " ++ b ++
            " (+" ++ jsNumToString l ++ ")")]) := by
      simp only [applyHedgeFromSelection, hsub]
      rw [if_neg hne]
      simp only [hprompt, hcreate, hretry]
      simp [hedgeSuccess, List.append_assoc]
    refine ⟨h1, ?_⟩
    rw [h1]
    exact loadPositions_sel_empty _ _ (clearSelection_sel st)

/-- C1 witness: concrete accepted submissions on all three routes —
first-submit acceptance (`envC1`), retry acceptance after
missing-strategies resolution (`envC1b`), and retry acceptance after
missing-hedged-pattern creation (`envC1c`). -/
theorem C1_success_path_witness :
    (applyHedgeFromSelection envC1 stC1 =
      (loadPositions (clearSelection stC1) envC1.fetchResult,
       [HedgeEvent.implementHedge (buildPayload stC1), HedgeEvent.fetchPositions,
        HedgeEvent.logMsg ("Hedge applied: " ++ "H" ++ " @ " ++ "JAN" ++
          " (+" ++ jsNumToString 5 ++ ")")]) ∧
     (applyHedgeFromSelection envC1 stC1).1.selectedCells = []) ∧
    (applyHedgeFromSelection envC1b stC1 =
      (loadPositions (clearSelection stC1) envC1b.fetchResult,
       [HedgeEvent.implementHedge (buildPayload stC1),
        HedgeEvent.createStrategy "X" (JSVal.arr [JSAtom.num 1, JSAtom.num (-1)])] ++
       [HedgeEvent.implementHedge (buildPayload stC1),
        HedgeEvent.fetchPositions,
        HedgeEvent.logMsg ("Hedge applied: " ++ "H" ++ " @ " ++ "JAN" ++
          " (+" ++ jsNumToString 5 ++ ")")]) ∧
     (applyHedgeFromSelection envC1b stC1).1.selectedCells = []) ∧
    (applyHedgeFromSelection envC1c stC1 =
      (loadPositions (clearSelection stC1) envC1c.fetchResult,
       [HedgeEvent.implementHedge (buildPayload stC1),
        HedgeEvent.createStrategy "N" (JSVal.arr ([1, -1].map JSAtom.num)),
        HedgeEvent.implementHedge (buildPayload stC1),
        HedgeEvent.fetchPositions,
        HedgeEvent.logMsg ("Hedge applied: " ++ "H" ++ " @ " ++ "JAN" ++
          " (+" ++ jsNumToString 5 ++ ")")]) ∧
     (applyHedgeFromSelection envC1c stC1).1.selectedCells = []) :=
  ⟨(C1_success_path envC1 stC1 "H" "JAN" 5 (by decide)).1 rfl,
   (C1_success_path envC1b stC1 "H" "JAN" 5 (by decide)).2.1
     ["X"]
     [HedgeEvent.implementHedge (buildPayload stC1),
      HedgeEvent.createStrategy "X" (JSVal.arr [JSAtom.num 1, JSAtom.num (-1)])]
     rfl rfl rfl,
   (C1_success_path envC1c stC1 "H" "JAN" 5 (by decide)).2.2
     [1, -1] "N" rfl rfl rfl rfl⟩

/--
C2.  A run that enters recovery (missing_strategies or
missing_hedged_pattern) and resolves it resubmits the identical original
payload exactly once — the trace contains exactly two `implement_hedge`
POSTs, both with the original payload — and if the retry fails for any
reason the run ends with a final `alert` and the page state (the
populated SelectionStore included) exactly as it was; no further retry
occurs.
-/
theorem C2_single_retry_then_final_error :
    ∀ (env : HedgeEnv) (st : PageState),
      st.selectedCells ≠ [] → env.retryResp.isOkB = false →
      ((∀ (ms : List String) (evs' : List HedgeEvent),
          env.submitResp = HedgeResp.errMissing ms →
          resolveMissing env ms [HedgeEvent.implementHedge (buildPayload st)] =
            ResolveResult.ok evs' →
          applyHedgeFromSelection env st =
            (st, evs' ++ [HedgeEvent.implementHedge (buildPayload st),
                          HedgeEvent.alertMsg ("Error: " ++ retryErrMsg env.retryResp)]) ∧
          (applyHedgeFromSelection env st).2.filter isImplEv =
            [HedgeEvent.implementHedge (buildPayload st),
             HedgeEvent.implementHedge (buildPayload st)]) ∧
       (∀ (pat : List Rat) (name : String),
          env.submitResp = HedgeResp.errPattern pat →
          env.promptHedgedName = some name →
          env.createResp name (JSVal.arr (pat.map JSAtom.num)) = CreateResp.ok →
          applyHedgeFromSelection env st =
            (st, [HedgeEvent.implementHedge (buildPayload st),
                  HedgeEvent.createStrategy name (JSVal.arr (pat.map JSAtom.num)),
                  HedgeEvent.implementHedge (buildPayload st),
                  HedgeEvent.alertMsg ("Error: " ++ retryErrMsg env.retryResp)]))) := by
  intro env st hne hretry
  constructor
  · intro ms evs' hsub hres
    have h1 : applyHedgeFromSelection env st =
        (st, evs' ++ [HedgeEvent.implementHedge (buildPayload st),
                      HedgeEvent.alertMsg ("Error: " ++ retryErrMsg env.retryResp)]) := by
      simp only [applyHedgeFromSelection, hsub]
      rw [if_neg hne]
      simp only [hres]
      cases hr : env.retryResp with
      | ok n b l => rw [hr] at hretry; simp [HedgeResp.isOkB] at hretry
      | errMissing m => simp
      | errPattern p => simp
      | errOther m => simp
    refine ⟨h1, ?_⟩
    rw [h1]
    obtain ⟨tail, htl, hall⟩ := resolveMissing_ok_shape env ms _ evs' hres
    rw [htl]
    simp only [List.filter_append]
    have htail : tail.filter isImplEv = [] := by
      rw [List.filter_eq_nil_iff]
      intro e he
      have := hall e he
      cases e <;> simp_all [isCreateEv, isImplEv]
    rw [htail]
    simp [isImplEv]
  · intro pat name hsub hprompt hcreate
    simp only [applyHedgeFromSelection, hsub]
    rw [if_neg hne]
    simp only [hprompt, hcreate]
    cases hr : env.retryResp with
    | ok n b l => rw [hr] at hretry; simp [HedgeResp.isOkB] at hretry
    | errMissing m => simp
    | errPattern p => simp
    | errOther m => simp

/-- Backend rejecting with `missing_strategies: ["X"]`, operator
providing pattern `[1,-1]`, strategy creation succeeding, the retry
failing with reason `"boom"`. -/
def envC2a : HedgeEnv :=
  { submitResp := HedgeResp.errMissing ["X"],
    promptMissing := fun _ => some "[1,-1]",
    evalJS := fun _ => some (JSVal.arr [JSAtom.num 1, JSAtom.num (-1)]),
    createResp := fun _ _ => CreateResp.ok,
    promptHedgedName := none,
    retryResp := HedgeResp.errOther "boom",
    fetchResult := Except.ok snapA }

/-- Backend rejecting with `missing_hedged_pattern`, operator naming the
pattern `"N"`, creation succeeding, the retry failing. -/
def envC2b : HedgeEnv :=
  { envC2a with submitResp := HedgeResp.errPattern [1, -1],
                promptHedgedName := some "N" }

/-- C2 witness: both recovery branches at concrete inputs. -/
theorem C2_single_retry_then_final_error_witness :
    applyHedgeFromSelection envC2a stC1 =
      (stC1, [HedgeEvent.implementHedge (buildPayload stC1),
              HedgeEvent.createStrategy "X" (JSVal.arr [JSAtom.num 1, JSAtom.num (-1)])] ++
             [HedgeEvent.implementHedge (buildPayload stC1),
              HedgeEvent.alertMsg ("Error: " ++ retryErrMsg envC2a.retryResp)]) ∧
    applyHedgeFromSelection envC2b stC1 =
      (stC1, [HedgeEvent.implementHedge (buildPayload stC1),
              HedgeEvent.createStrategy "N" (JSVal.arr ([1, -1].map JSAtom.num)),
              HedgeEvent.implementHedge (buildPayload stC1),
              HedgeEvent.alertMsg ("Error: " ++ retryErrMsg envC2b.retryResp)]) :=
  ⟨((C2_single_retry_then_final_error envC2a stC1 (by decide) rfl).1
      ["X"]
      [HedgeEvent.implementHedge (buildPayload stC1),
       HedgeEvent.createStrategy "X" (JSVal.arr [JSAtom.num 1, JSAtom.num (-1)])]
      rfl rfl).1,
   (C2_single_retry_then_final_error envC2b stC1 (by decide) rfl).2
      [1, -1] "N" rfl rfl rfl⟩

/--
C3.  Declining a prompt aborts the whole operation with the explicit
cancelled outcome: (a) a declined missing-strategies prompt stops the
resolution loop at once with `'Operation cancelled by user'`, appending
no `create_strategy` event for the declined or any later name; (b) any
error thrown during resolution — cancellation included — ends the run
with the page state (SelectionStore and grid) exactly as it was and an
operator-visible `alert`; (c) declining the missing-hedged-pattern
prompt likewise leaves the state untouched and alerts the cancellation.
-/
theorem C3_cancel_aborts :
    (∀ (env : HedgeEnv) (name : String) (rest : List String) (evs : List HedgeEvent),
       env.promptMissing name = none →
       resolveMissing env (name :: rest) evs =
         ResolveResult.err "Operation cancelled by user" evs) ∧
    (∀ (env : HedgeEnv) (st : PageState) (ms : List String) (msg : String)
       (evs' : List HedgeEvent),
       st.selectedCells ≠ [] →
       env.submitResp = HedgeResp.errMissing ms →
       resolveMissing env ms [HedgeEvent.implementHedge (buildPayload st)] =
         ResolveResult.err msg evs' →
       applyHedgeFromSelection env st =
         (st, evs' ++ [HedgeEvent.alertMsg ("Error: " ++ msg)])) ∧
    (∀ (env : HedgeEnv) (st : PageState) (pat : List Rat),
       st.selectedCells ≠ [] →
       env.submitResp = HedgeResp.errPattern pat →
       env.promptHedgedName = none →
       applyHedgeFromSelection env st =
         (st, [HedgeEvent.implementHedge (buildPayload st),
               HedgeEvent.alertMsg "Error: Operation cancelled by user"])) := by
  refine ⟨?_, ?_, ?_⟩
  · intro env name rest evs hp
    simp only [resolveMissing, hp]
  · intro env st ms msg evs' hne hsub hres
    simp only [applyHedgeFromSelection, hsub]
    rw [if_neg hne]
    simp only [hres]
  · intro env st pat hne hsub hprompt
    simp only [applyHedgeFromSelection, hsub]
    rw [if_neg hne]
    simp only [hprompt]
    rfl

/-- Operator declining the missing-strategies prompt. -/
def envC3a : HedgeEnv := { envC2a with promptMissing := fun _ => none }

/-- Operator declining the missing-hedged-pattern prompt. -/
def envC3b : HedgeEnv :=
  { envC2a with submitResp := HedgeResp.errPattern [1, -1],
                promptHedgedName := none }

/-- C3 witness: concrete declined prompts in both recovery branches. -/
theorem C3_cancel_aborts_witness :
    resolveMissing envC3a ["X", "Y"] [] =
      ResolveResult.err "Operation cancelled by user" [] ∧
    applyHedgeFromSelection envC3a stC1 =
      (stC1, [HedgeEvent.implementHedge (buildPayload stC1)] ++
             [HedgeEvent.alertMsg ("Error: " ++ "Operation cancelled by user")]) ∧
    applyHedgeFromSelection envC3b stC1 =
      (stC1, [HedgeEvent.implementHedge (buildPayload stC1),
              HedgeEvent.alertMsg "Error: Operation cancelled by user"]) :=
  ⟨C3_cancel_aborts.1 envC3a "X" ["Y"] [] rfl,
   C3_cancel_aborts.2.1 envC3a stC1 ["X"] "Operation cancelled by user"
     [HedgeEvent.implementHedge (buildPayload stC1)] (by decide) rfl rfl,
   C3_cancel_aborts.2.2 envC3b stC1 [1, -1] (by decide) rfl rfl⟩

/-- Backend missing strategy `"X"`; the operator types `['a']`, which
`eval` turns into a one-element array holding a *string* (modelled by
`evalJS`); creation and retry succeed. -/
def envC4 : HedgeEnv :=
  { submitResp := HedgeResp.errMissing ["X"],
    promptMissing := fun n => if n = "X" then some "['a']" else none,
    evalJS := fun s => if s = "['a']" then some (JSVal.arr [JSAtom.str "a"]) else none,
    createResp := fun _ _ => CreateResp.ok,
    promptHedgedName := none,
    retryResp := HedgeResp.ok "X" "JAN" 5,
    fetchResult := Except.ok snapA }

/--
C4.  The claim (and §9 of the spec, which makes it a hard requirement)
says the operator's pattern input is parsed as a strict numeric array
and that any non-numeric input aborts with an "invalid pattern" error
before any create-strategy request.  The source instead `eval`s the text
and checks only `Array.isArray` (lines 312–313): on input `['a']` the
run issues `create_strategy` for `"X"` with the non-numeric pattern
`['a']` and completes successfully — no "invalid pattern" abort occurs
although the strict parser required by the spec rejects that value.
-/
theorem C4_eval_accepts_nonnumeric_pattern :
    (applyHedgeFromSelection envC4 stC1).2 =
      [HedgeEvent.implementHedge (buildPayload stC1),
       HedgeEvent.createStrategy "X" (JSVal.arr [JSAtom.str "a"]),
       HedgeEvent.implementHedge (buildPayload stC1),
       HedgeEvent.fetchPositions,
       HedgeEvent.logMsg "Hedge applied: X @ JAN (+5)"] ∧
    isJSArray (JSVal.arr [JSAtom.str "a"]) = true ∧
    isStrictNumericArray (JSVal.arr [JSAtom.str "a"]) = false := by
  refine ⟨by decide, rfl, rfl⟩

/--
C8.  Clicking a cell of the row named `"Total"` is a no-op on selection
state under any modifier: `attachCellSelectionHandlers` attaches no
click handler to such cells (lines 150–156), so the page state — the
SelectionStore, its size, and every cell's visual `selected` class —
is exactly unchanged; moreover along every event trace from page load
the SelectionStore never holds an entry of the `"Total"` row.
-/
theorem C8_total_row_click_noop :
    ∀ (evs : List UIEvent) (contract : String) (ctrl : Bool),
      uiStep (uiRun pageInit evs) (UIEvent.click "Total" contract ctrl) =
        uiRun pageInit evs ∧
      ∀ s ∈ (uiRun pageInit evs).selectedCells, s.structureName ≠ "Total" := by
  intro evs contract ctrl
  refine ⟨?_, uiRun_totalfree evs⟩
  set st := uiRun pageInit evs with hst
  simp only [uiStep]
  cases hfind : findCellPair st.dom "Total" contract with
  | none => rfl
  | some cell =>
      simp only [findCellPair] at hfind
      have hp := List.find?_some hfind
      have hp' := of_decide_eq_true hp
      show (if cell.structureName = "Total" then st
        else toggleCellSelection (if ctrl = true then st else clearSelection st)
          cell) = st
      rw [if_pos hp'.1]

/-- C8 witness: a rendered snapshot containing a `"Total"` row, then a
plain click on its cell. -/
theorem C8_total_row_click_noop_witness :
    uiStep (uiRun pageInit [UIEvent.load (Except.ok ⟨["JAN"], [⟨"A", [1]⟩, ⟨"Total", [1]⟩]⟩)])
        (UIEvent.click "Total" "JAN" false) =
      uiRun pageInit [UIEvent.load (Except.ok ⟨["JAN"], [⟨"A", [1]⟩, ⟨"Total", [1]⟩]⟩)] :=
  (C8_total_row_click_noop [UIEvent.load (Except.ok ⟨["JAN"], [⟨"A", [1]⟩, ⟨"Total", [1]⟩]⟩)]
    "JAN" false).1

end App
